import Mathlib

/-!
Verification of the MongoDB-to-GCS backup orchestrator.

The definitions below are a shallow embedding of `src/main.py` (the live
entry point, imported by `src/app.py`), with outcomes of the external
collaborators (MongoDB, GCS, Graph mail) supplied by an `Env` record of
oracles.  The per-collection loop, the completion decision, the retention
sweep and the connection/teardown control flow are translated branch by
branch from `MongoDBBackup.run_backup`, `get_collections_to_backup`,
`export_collection_to_json`, `upload_to_gcs`, `cleanup_old_backups` and
the module-level `main`.
-/

namespace Classets

/-- Oracle environment: outcomes of the external collaborator calls that
the Python code observes.  `mongoOk` / `gcsOk` are the results of
`connect_mongo` / `connect_gcs`; `listNamesOk` is whether
`db.list_collection_names()` returns (rather than raising `PyMongoError`);
`exportOk c` is whether `collection.find({})` plus id-stringification
succeeds for collection `c`; `uploadOk c` is whether the GCS
`upload_from_string` for `c`'s artifact succeeds; `exportCount c` is the
document count; `serialize c` is the `json.dumps` rendering of `c`'s
export dict. -/
structure Env where
  mongoOk : Bool
  gcsOk : Bool
  listNamesOk : Bool
  availableCollections : List String
  configuredCollections : List String
  exportOk : String → Bool
  exportCount : String → Nat
  uploadOk : String → Bool
  serialize : String → String

/-- One entry of `self.backup_info` (main.py lines 354-358): appended only
when the collection exported and its upload succeeded. -/
structure BackupEntry where
  collection : String
  documents : Nat
  file : String
deriving Repr, DecidableEq

/-- The root prefix of all stored backup artifacts (`'backups/'` in
main.py lines 131, 319, 352). -/
def backupsPre : String :=
  "backups/"

/-- `f'backups/{self.db_name}/{self.backup_timestamp}/{collection_name}.json'`
(main.py line 352). -/
def backup_filename (db ts coll : String) : String :=
  backupsPre ++ db ++ "/" ++ ts ++ "/" ++ coll ++ ".json"

/-- `get_collections_to_backup` (main.py lines 70-85): on a listing
failure the `except` returns `[]`; with a non-empty configured list the
result is the configured names filtered by membership in the live list;
otherwise all live collections. -/
def get_collections_to_backup (env : Env) : List String :=
  if env.listNamesOk then
    if env.configuredCollections.isEmpty then
      env.availableCollections
    else
      env.configuredCollections.filter (fun c => env.availableCollections.contains c)
  else
    []

/-- The per-collection loop of `run_backup` (main.py lines 347-364):
export, then upload; append a `backup_info` entry exactly when both
succeed; on either failure just log and `continue`. -/
def run_loop (env : Env) (db ts : String) : List String → List BackupEntry
  | [] => []
  | c :: rest =>
    if env.exportOk c then
      if env.uploadOk c then
        ⟨c, env.exportCount c, backup_filename db ts c⟩ :: run_loop env db ts rest
      else
        run_loop env db ts rest
    else
      run_loop env db ts rest

/-- The fate of one collection in the loop, read off the branch structure
of main.py lines 350-364: export raises → `ExportFailed`; export succeeds
but the GCS put fails → `UploadFailed`; both succeed → `Exported`. -/
inductive Outcome
  | Exported
  | ExportFailed
  | UploadFailed
deriving Repr, DecidableEq

/-- Which branch of the loop body a given collection takes. -/
def collection_outcome (env : Env) (c : String) : Outcome :=
  if env.exportOk c then
    if env.uploadOk c then Outcome.Exported else Outcome.UploadFailed
  else
    Outcome.ExportFailed

/-- The ordered per-collection outcomes of one traversal of the loop. -/
def run_outcomes (env : Env) (cs : List String) : List Outcome :=
  cs.map (collection_outcome env)

/-- Observables of one `run_backup` call (main.py lines 332-388). -/
structure RunResult where
  success : Bool
  backupInfo : List BackupEntry
  uploads : List (String × String)
  errorEmailAttempts : List String
  successEmailAttempted : Bool
  metadataUploadAttempted : Bool
  clientClosed : Bool
deriving Repr, DecidableEq

/-- `run_backup` (main.py lines 332-388).  The connection guard
(line 334) runs before the `try`, so its early return bypasses the
`finally` that closes the Mongo client; every path inside the `try`
(empty collection set, per-collection loop, success or total failure)
runs the `finally` and closes the client. -/
def run_backup (env : Env) (db ts : String) : RunResult :=
  if !env.mongoOk || !env.gcsOk then
    { success := false
      backupInfo := []
      uploads := []
      errorEmailAttempts := ["Failed to connect to MongoDB or GCS"]
      successEmailAttempted := false
      metadataUploadAttempted := false
      clientClosed := false }
  else
    let cs := get_collections_to_backup env
    if cs.isEmpty then
      { success := false
        backupInfo := []
        uploads := []
        errorEmailAttempts := ["No collections to backup"]
        successEmailAttempted := false
        metadataUploadAttempted := false
        clientClosed := true }
    else
      let info := run_loop env db ts cs
      if info.isEmpty then
        { success := false
          backupInfo := info
          uploads := []
          errorEmailAttempts := ["No collections were successfully backed up"]
          successEmailAttempted := false
          metadataUploadAttempted := false
          clientClosed := true }
      else
        { success := true
          backupInfo := info
          uploads := info.map (fun e => (e.file, env.serialize e.collection))
          errorEmailAttempts := []
          successEmailAttempted := true
          metadataUploadAttempted := true
          clientClosed := true }

/-- A stored GCS object as seen by `cleanup_old_backups`: its name and its
`time_created` metadata (`none` when the metadata is missing), in seconds
since the epoch. -/
structure Blob where
  name : String
  timeCreated : Option Int
deriving Repr, DecidableEq

/-- Whether a stored object's name lies under the `backups/` prefix (the
`prefix='backups/'` argument of `list_blobs`, main.py line 319), as a
character-level prefix test. -/
def underBackups (s : String) : Bool :=
  backupsPre.data.isPrefixOf s.data

/-- `cleanup_old_backups` (main.py lines 312-330): list blobs under the
`backups/` prefix, and delete those whose `time_created` exists and is
strictly before `utcnow() - timedelta(days=days)`.  Returns the list of
deleted blobs.  `now` is in seconds; a day is 86400 seconds. -/
def cleanup_old_backups (now : Int) (days : Nat) (blobs : List Blob) : List Blob :=
  (blobs.filter (fun b => underBackups b.name)).filter
    (fun b =>
      match b.timeCreated with
      | some t => decide (t < now - (days : Int) * 86400)
      | none => false)

/-- The status string `'success'` reported by `main` (main.py line 401). -/
def statusSuccess : String :=
  "success"

/-- The status string `'failed'` reported by `main` (main.py line 401). -/
def statusFailed : String :=
  "failed"

/-- The status string and HTTP code computed by `main` (main.py
lines 400-403). -/
def run_status_string (success : Bool) : String :=
  if success then statusSuccess else statusFailed

/-- Observables of one call of the module-level `main` (main.py
lines 390-406). -/
structure MainResult where
  status : String
  httpCode : Nat
  cleanupCalled : Bool
  deletedBlobs : List Blob
deriving Repr, DecidableEq

/-- `main` (main.py lines 390-406): run the backup, then call
`cleanup_old_backups(retention_days)` unconditionally — the cleanup call
is not guarded by `success`. -/
def main_entry (env : Env) (db ts : String) (retentionDays : Nat)
    (now : Int) (blobs : List Blob) : MainResult :=
  let r := run_backup env db ts
  { status := run_status_string r.success
    httpCode := if r.success then 200 else 500
    cleanupCalled := true
    deletedBlobs := cleanup_old_backups now retentionDays blobs }

/-- The spec's three-valued completion status (§4.4 of the design
document); written from the spec's words to compare against the code's
two-valued result. -/
inductive SpecStatus
  | Success
  | PartialFailure
  | Failed
deriving Repr, DecidableEq

/-- The spec's completion decision, from its words: at least one
`Exported` → `Success` if all are `Exported` else `PartialFailure`;
zero `Exported` → `Failed`. -/
def spec_run_status (outcomes : List Outcome) : SpecStatus :=
  if outcomes.contains Outcome.Exported then
    if outcomes.all (fun o => o == Outcome.Exported) then
      SpecStatus.Success
    else
      SpecStatus.PartialFailure
  else
    SpecStatus.Failed

/-- The artifact path the spec prescribes (§6, persisted artifact
layout); written from the spec's words to compare against
`backup_filename`. -/
def spec_artifact_path (folder coll : String) : String :=
  backupsPre ++ folder ++ "/" ++ coll ++ ".json.gz"

/-- Modelled from the spec: the Run Counter component (§4.5) has no
implementation under `src/` (no counter is read or persisted anywhere in
`main.py`, `backup.py` or `app.py`).  `next` reads the persisted integer,
defaulting to 1 when absent. -/
def runCounterNext (store : Option Nat) : Nat :=
  store.getD 1

/-- Modelled from the spec: `commit(n)` persists `n + 1` for the next
invocation (§4.5). -/
def runCounterCommit (n : Nat) : Nat :=
  n + 1

/-- Modelled from the spec: one run's interaction with the Run Counter
(§4.4 post-processing / §4.5): the label is read once at run start via
`next`; `commit` is invoked only when the run is judged non-total-failure,
so a `Failed` run leaves the persisted value unchanged. -/
def run_with_counter (store : Option Nat) (st : SpecStatus) : Nat × Option Nat :=
  let n := runCounterNext store
  (n, if st = SpecStatus.Failed then store else some (runCounterCommit n))

/-! ### Concrete fixtures for witnesses and counterexamples -/

/-- The collection name of the spec's concrete scenario (§8). -/
def usersC : String :=
  "users"

/-- The second collection name of the spec's concrete scenario (§8). -/
def equipmentC : String :=
  "equipment"

/-- A configured collection name absent from the live database. -/
def ghostC : String :=
  "ghost"

/-- The default database name (`MONGO_DB_NAME` default, main.py line 28). -/
def dbDefault : String :=
  "default_db"

/-- A concrete `backup_timestamp` in the format of main.py line 45. -/
def tsDemo : String :=
  "2025-01-01_00-00-00"

/-- The `.json.gz` suffix the spec prescribes for artifacts (§6). -/
def gzSuffix : String :=
  ".json.gz"

/-- An environment where every collaborator call succeeds and the live
collections are `users` and `equipment`. -/
def envAllOk : Env where
  mongoOk := true
  gcsOk := true
  listNamesOk := true
  availableCollections := [usersC, equipmentC]
  configuredCollections := []
  exportOk := fun _ => true
  exportCount := fun _ => 3
  uploadOk := fun _ => true
  serialize := fun c => c ++ ":payload"

/-- The spec's §8 scenario: the `users` export raises, `equipment`
exports and uploads. -/
def envMixed : Env :=
  { envAllOk with exportOk := fun c => c == equipmentC }

/-- MongoDB connects but the GCS connection fails. -/
def envNoGcs : Env :=
  { envAllOk with gcsOk := false }

/-- `list_collection_names` raises, so the collection list is empty. -/
def envListFail : Env :=
  { envAllOk with listNamesOk := false }

/-- Every export raises. -/
def envExportFail : Env :=
  { envAllOk with exportOk := fun _ => false }

/-- An explicit configured list naming one live collection and one
nonexistent collection. -/
def envConfigured : Env :=
  { envAllOk with configuredCollections := [usersC, ghostC] }

/-- An artifact created 40 days before the reference time (seconds). -/
def blobOld : Blob where
  name := backupsPre ++ "a.json"
  timeCreated := some (-3456000)

/-- An artifact created 10 days before the reference time. -/
def blobMid : Blob where
  name := backupsPre ++ "b.json"
  timeCreated := some (-864000)

/-- An artifact created 1 hour before the reference time. -/
def blobNew : Blob where
  name := backupsPre ++ "c.json"
  timeCreated := some (-3600)

/-- An artifact with missing creation-timestamp metadata. -/
def blobNoMeta : Blob where
  name := backupsPre ++ "d.json"
  timeCreated := none

/-! ### Helper lemmas about the per-collection loop -/

/-- `backup_info` after the loop is exactly the collections whose export
and upload both succeeded, in input order, mapped to their entries. -/
theorem run_loop_eq_filter_map (env : Env) (db ts : String) (cs : List String) :
    run_loop env db ts cs =
      (cs.filter (fun c => env.exportOk c && env.uploadOk c)).map
        (fun c => BackupEntry.mk c (env.exportCount c) (backup_filename db ts c)) := by
  induction cs with
  | nil => rfl
  | cons c rest ih =>
    cases he : env.exportOk c with
    | false => simp [run_loop, he, List.filter_cons, ih]
    | true =>
      cases hu : env.uploadOk c with
      | false => simp [run_loop, he, hu, List.filter_cons, ih]
      | true => simp [run_loop, he, hu, List.filter_cons, ih]

/-- A collection whose export and upload both succeed contributes its
entry to `backup_info`, whatever happens to the other collections. -/
theorem mem_run_loop_of_ok (env : Env) (db ts : String) (cs : List String)
    (c : String) (hc : c ∈ cs) (he : env.exportOk c = true)
    (hu : env.uploadOk c = true) :
    BackupEntry.mk c (env.exportCount c) (backup_filename db ts c) ∈
      run_loop env db ts cs := by
  rw [run_loop_eq_filter_map]
  exact List.mem_map_of_mem _ (List.mem_filter.mpr ⟨hc, by simp [he, hu]⟩)

/-- A collection's outcome is `Exported` exactly when its export and its
upload both succeed. -/
theorem collection_outcome_exported_iff (env : Env) (c : String) :
    collection_outcome env c = Outcome.Exported ↔
      env.exportOk c = true ∧ env.uploadOk c = true := by
  unfold collection_outcome
  cases he : env.exportOk c <;> cases hu : env.uploadOk c <;> simp

/-- Some outcome is `Exported` exactly when some collection's export and
upload both succeed. -/
theorem exported_mem_outcomes_iff (env : Env) (cs : List String) :
    Outcome.Exported ∈ run_outcomes env cs ↔
      ∃ c, c ∈ cs ∧ env.exportOk c = true ∧ env.uploadOk c = true := by
  unfold run_outcomes
  rw [List.mem_map]
  constructor
  · rintro ⟨c, hc, h⟩
    exact ⟨c, hc, (collection_outcome_exported_iff env c).mp h⟩
  · rintro ⟨c, hc, he, hu⟩
    exact ⟨c, hc, (collection_outcome_exported_iff env c).mpr ⟨he, hu⟩⟩

/-- `backup_info` is non-empty exactly when some outcome is `Exported`. -/
theorem run_loop_isEmpty_false_iff (env : Env) (db ts : String)
    (cs : List String) :
    (run_loop env db ts cs).isEmpty = false ↔
      Outcome.Exported ∈ run_outcomes env cs := by
  rw [List.isEmpty_eq_false, Ne, run_loop_eq_filter_map,
    exported_mem_outcomes_iff]
  simp [List.filter_eq_nil_iff]

/-- `contains` on a list of strings is membership. -/
theorem contains_eq_true_iff (l : List String) (c : String) :
    l.contains c = true ↔ c ∈ l := by
  simp [List.contains, List.elem_iff]

/-! ### Claim theorems -/

/-- C7: for every reference time, every retention window and every set of
stored artifacts, `cleanup_old_backups` deletes exactly the artifacts
under the backup prefix whose creation timestamp exists and is strictly
older than now minus retentionDays; an artifact with missing
creation-timestamp metadata is never deleted.  In particular, with
artifacts aged 40 days, 10 days and 1 hour (plus one with no metadata)
and retentionDays = 30, exactly the 40-day-old artifact is deleted. -/
theorem cleanup_deletes_exactly_expired :
    (∀ (now : Int) (days : Nat) (blobs : List Blob) (b : Blob),
        b ∈ cleanup_old_backups now days blobs ↔
          b ∈ blobs ∧ underBackups b.name = true ∧
            ∃ t, b.timeCreated = some t ∧ t < now - (days : Int) * 86400) ∧
    cleanup_old_backups 0 30 [blobOld, blobMid, blobNew, blobNoMeta] =
      [blobOld] := by
  constructor
  · intro now days blobs b
    unfold cleanup_old_backups
    rw [List.mem_filter, List.mem_filter]
    constructor
    · rintro ⟨⟨hb, hpre⟩, hexp⟩
      refine ⟨hb, hpre, ?_⟩
      cases ht : b.timeCreated with
      | none => rw [ht] at hexp; simp at hexp
      | some t =>
        rw [ht] at hexp
        simp only [decide_eq_true_eq] at hexp
        exact ⟨t, rfl, hexp⟩
    · rintro ⟨hb, hpre, t, ht, hlt⟩
      refine ⟨⟨hb, hpre⟩, ?_⟩
      rw [ht]
      simpa using hlt
  · decide

/-- C7 witness: by the characterization, the 40-day-old artifact is
deleted at retentionDays = 30. -/
theorem cleanup_deletes_exactly_expired_witness :
    blobOld ∈ cleanup_old_backups 0 30 [blobOld, blobMid, blobNew, blobNoMeta] :=
  (cleanup_deletes_exactly_expired.1 0 30
      [blobOld, blobMid, blobNew, blobNoMeta] blobOld).mpr
    ⟨by decide, by decide, ⟨-3456000, rfl, by decide⟩⟩

/-- C8: when the collection listing succeeds, a non-empty configured
collection list is intersected with the live collection names (configured
names not present are silently skipped), and an empty configured list
selects every live collection. -/
theorem collections_selection_spec (env : Env)
    (hl : env.listNamesOk = true) :
    (env.configuredCollections = [] →
        get_collections_to_backup env = env.availableCollections) ∧
    (env.configuredCollections ≠ [] →
        ∀ c, c ∈ get_collections_to_backup env ↔
          (c ∈ env.configuredCollections ∧ c ∈ env.availableCollections)) := by
  constructor
  · intro h
    simp [get_collections_to_backup, hl, h]
  · intro h c
    have hne : env.configuredCollections.isEmpty = false :=
      List.isEmpty_eq_false.mpr h
    simp [get_collections_to_backup, hl, hne, List.mem_filter,
      contains_eq_true_iff]

/-- C8 witness: with no configured list all live collections are
selected; with a configured list of one live and one nonexistent name the
selection is exactly the intersection. -/
theorem collections_selection_spec_witness :
    get_collections_to_backup envAllOk = envAllOk.availableCollections ∧
    (usersC ∈ get_collections_to_backup envConfigured ↔
      (usersC ∈ envConfigured.configuredCollections ∧
        usersC ∈ envConfigured.availableCollections)) ∧
    get_collections_to_backup envConfigured = [usersC] :=
  ⟨(collections_selection_spec envAllOk rfl).1 rfl,
   (collections_selection_spec envConfigured rfl).2 (by decide) usersC,
   by decide⟩

/-- C3 (Run Counter, modelled from the spec): the label is read once at
run start, defaulting to 1 when no value is persisted; after a
non-total-failure run the persisted value is exactly the label plus one;
after a `Failed` run the persisted value is unchanged, so a retried run
displays the same number. -/
theorem run_counter_contract (store : Option Nat) (st : SpecStatus) :
    (run_with_counter store st).1 = store.getD 1 ∧
    (store = none → (run_with_counter store st).1 = 1) ∧
    (st ≠ SpecStatus.Failed →
      (run_with_counter store st).2 =
        some ((run_with_counter store st).1 + 1)) ∧
    (st = SpecStatus.Failed →
      (run_with_counter store st).2 = store ∧
        ∀ st2 : SpecStatus,
          (run_with_counter (run_with_counter store st).2 st2).1 =
            (run_with_counter store st).1) := by
  refine ⟨rfl, ?_, ?_, ?_⟩
  · intro h
    rw [run_with_counter, h]
    rfl
  · intro h
    simp [run_with_counter, runCounterNext, runCounterCommit, h]
  · intro h
    simp [run_with_counter, h]

/-- C3 witness: a persisted value 5 labels the run 5; a partial-failure
run commits 6; a failed run leaves 5 persisted and a retry is labelled 5
again. -/
theorem run_counter_contract_witness :
    (run_with_counter (some 5) SpecStatus.PartialFailure).1 = 5 ∧
    (run_with_counter (some 5) SpecStatus.PartialFailure).2 = some 6 ∧
    (run_with_counter (some 5) SpecStatus.Failed).2 = some 5 ∧
    (run_with_counter (run_with_counter (some 5) SpecStatus.Failed).2
        SpecStatus.Success).1 = 5 := by
  refine ⟨(run_counter_contract (some 5) SpecStatus.PartialFailure).1, ?_, ?_, ?_⟩
  · have h :=
      (run_counter_contract (some 5) SpecStatus.PartialFailure).2.2.1 (by decide)
    exact h.trans (by decide)
  · exact ((run_counter_contract (some 5) SpecStatus.Failed).2.2.2 rfl).1
  · exact ((run_counter_contract (some 5) SpecStatus.Failed).2.2.2 rfl).2
      SpecStatus.Success

/-- C1 (amended): once the per-collection loop is reached, `run_backup`
reports success exactly when at least one collection's outcome is
`Exported`; the code draws no further distinction, so a run with some
failed collections carries the same status as an all-success run. -/
theorem run_success_iff_some_exported (env : Env) (db ts : String)
    (hm : env.mongoOk = true) (hg : env.gcsOk = true)
    (hne : get_collections_to_backup env ≠ []) :
    (run_backup env db ts).success = true ↔
      Outcome.Exported ∈ run_outcomes env (get_collections_to_backup env) := by
  have hcs : (get_collections_to_backup env).isEmpty = false :=
    List.isEmpty_eq_false.mpr hne
  cases hinfo : (run_loop env db ts (get_collections_to_backup env)).isEmpty with
  | true =>
    have hout : Outcome.Exported ∉
        run_outcomes env (get_collections_to_backup env) := by
      intro h
      rw [(run_loop_isEmpty_false_iff env db ts _).mpr h] at hinfo
      exact Bool.false_ne_true hinfo
    simp [run_backup, hm, hg, hcs, hinfo, hout]
  | false =>
    have hout := (run_loop_isEmpty_false_iff env db ts _).mp hinfo
    simp [run_backup, hm, hg, hcs, hinfo, hout]

/-- C1 witness: with both collections exporting and uploading, the run
succeeds, matching the presence of an `Exported` outcome. -/
theorem run_success_iff_some_exported_witness :
    (run_backup envAllOk dbDefault tsDemo).success = true :=
  (run_success_iff_some_exported envAllOk dbDefault tsDemo rfl rfl
    (by decide)).mpr (by decide)

/-- C1 counterexample: the spec's §8 mixed scenario (the `users` export
raises, `equipment` succeeds) is a `PartialFailure` under the spec's
completion rule, yet the code gives it the very same observable status as
an all-success run — the string `success` — so the claimed three-way
status decision does not hold of the code. -/
theorem status_collapse_partial_run :
    spec_run_status (run_outcomes envMixed
        (get_collections_to_backup envMixed)) = SpecStatus.PartialFailure ∧
    spec_run_status (run_outcomes envAllOk
        (get_collections_to_backup envAllOk)) = SpecStatus.Success ∧
    (run_backup envMixed dbDefault tsDemo).success =
      (run_backup envAllOk dbDefault tsDemo).success ∧
    run_status_string (run_backup envMixed dbDefault tsDemo).success =
      statusSuccess := by
  decide

/-- C2 (amended): `main` invokes retention cleanup unconditionally after
`run_backup` returns, so cleanup runs after a `Failed` run too, and the
deletions performed are those of `cleanup_old_backups` whatever the run
status was. -/
theorem cleanup_after_every_run (env : Env) (db ts : String) (days : Nat)
    (now : Int) (blobs : List Blob)
    (hfail : (run_backup env db ts).success = false) :
    (main_entry env db ts days now blobs).status = statusFailed ∧
    (main_entry env db ts days now blobs).cleanupCalled = true ∧
    (main_entry env db ts days now blobs).deletedBlobs =
      cleanup_old_backups now days blobs := by
  refine ⟨?_, rfl, rfl⟩
  show run_status_string (run_backup env db ts).success = statusFailed
  rw [hfail]
  rfl

/-- C2 witness: a run that fails because the collection listing raises
still has the cleanup sweep applied to the store. -/
theorem cleanup_after_every_run_witness :
    (main_entry envListFail dbDefault tsDemo 30 0 [blobOld]).status =
        statusFailed ∧
    (main_entry envListFail dbDefault tsDemo 30 0 [blobOld]).deletedBlobs =
      cleanup_old_backups 0 30 [blobOld] :=
  ⟨(cleanup_after_every_run envListFail dbDefault tsDemo 30 0 [blobOld]
      (by decide)).1,
   (cleanup_after_every_run envListFail dbDefault tsDemo 30 0 [blobOld]
      (by decide)).2.2⟩

/-- C2 counterexample: a run whose status is `failed` (the collection
listing raised) still issues a delete call — the 40-day-old artifact is
deleted — contradicting the claim that a Failed run issues zero delete
calls. -/
theorem failed_run_still_deletes :
    (main_entry envListFail dbDefault tsDemo 30 0 [blobOld, blobNew]).status =
        statusFailed ∧
    (main_entry envListFail dbDefault tsDemo 30 0
        [blobOld, blobNew]).deletedBlobs = [blobOld] := by
  decide

/-- C4 (amended): every successfully exported collection's artifact is
written at `backups/<db-name>/<timestamp>/<collection>.json`, and the
payload stored is exactly the serialized documents, with no compression
step applied. -/
theorem exported_artifact_path_payload (env : Env) (db ts c : String)
    (hm : env.mongoOk = true) (hg : env.gcsOk = true)
    (hc : c ∈ get_collections_to_backup env)
    (he : env.exportOk c = true) (hu : env.uploadOk c = true) :
    (backup_filename db ts c, env.serialize c) ∈
      (run_backup env db ts).uploads ∧
    backup_filename db ts c =
      backupsPre ++ db ++ "/" ++ ts ++ "/" ++ c ++ ".json" := by
  refine ⟨?_, rfl⟩
  have hcs : (get_collections_to_backup env).isEmpty = false :=
    List.isEmpty_eq_false.mpr (List.ne_nil_of_mem hc)
  have hmem := mem_run_loop_of_ok env db ts _ c hc he hu
  have hinfo :
      (run_loop env db ts (get_collections_to_backup env)).isEmpty = false :=
    List.isEmpty_eq_false.mpr (List.ne_nil_of_mem hmem)
  simp only [run_backup, hm, hg, Bool.not_true, Bool.or_self,
    Bool.false_eq_true, if_false, hcs, hinfo, if_neg, Bool.true_eq_false]
  exact List.mem_map_of_mem _ hmem

/-- C4 witness: in the all-success run, the `users` artifact and its
payload appear among the uploads. -/
theorem exported_artifact_path_payload_witness :
    (backup_filename dbDefault tsDemo usersC, envAllOk.serialize usersC) ∈
      (run_backup envAllOk dbDefault tsDemo).uploads :=
  (exported_artifact_path_payload envAllOk dbDefault tsDemo usersC rfl rfl
    (by decide) rfl rfl).1

/-- C4 counterexample: the artifact path the code computes ends in
`.json`, not in the `.json.gz` the spec's layout prescribes, so the
artifact is not stored under a `.json.gz` name (and no compression codec
is applied to the payload). -/
theorem artifact_path_not_compressed :
    backup_filename dbDefault tsDemo usersC =
      "backups/default_db/2025-01-01_00-00-00/users.json" ∧
    gzSuffix.data.isSuffixOf (backup_filename dbDefault tsDemo usersC).data =
      false ∧
    gzSuffix.data.isSuffixOf (spec_artifact_path tsDemo usersC).data = true := by
  refine ⟨rfl, by decide, by decide⟩

/-- C5: a failure while exporting or uploading one collection never
aborts the run: every collection yields exactly one outcome (the outcome
list has one entry per input collection, in order), and every collection
whose own export and upload succeed contributes its entry to
`backup_info`, regardless of any other collection's failure. -/
theorem collection_failure_isolation (env : Env) (db ts : String)
    (cs : List String) :
    (run_outcomes env cs).length = cs.length ∧
    (∀ c, c ∈ cs → env.exportOk c = true → env.uploadOk c = true →
      BackupEntry.mk c (env.exportCount c) (backup_filename db ts c) ∈
        run_loop env db ts cs) := by
  refine ⟨by simp [run_outcomes], ?_⟩
  intro c hc he hu
  exact mem_run_loop_of_ok env db ts cs c hc he hu

/-- C5 witness: with the `users` export raising, `equipment` is still
processed and backed up. -/
theorem collection_failure_isolation_witness :
    BackupEntry.mk equipmentC (envMixed.exportCount equipmentC)
        (backup_filename dbDefault tsDemo equipmentC) ∈
      run_loop envMixed dbDefault tsDemo [usersC, equipmentC] :=
  (collection_failure_isolation envMixed dbDefault tsDemo
    [usersC, equipmentC]).2 equipmentC (by decide) (by decide) rfl

/-- C6 (amended): each collection in the loop is assigned exactly one
outcome (`Exported` iff export and upload both succeed), but only the
`Exported` collections append an entry to `backup_info`: the results list
is exactly the successful collections mapped to their entries, and failed
collections append nothing. -/
theorem backup_info_exactly_successes (env : Env) (db ts : String)
    (cs : List String) :
    run_loop env db ts cs =
      (cs.filter (fun c => env.exportOk c && env.uploadOk c)).map
        (fun c => BackupEntry.mk c (env.exportCount c)
          (backup_filename db ts c)) ∧
    (run_outcomes env cs).length = cs.length ∧
    (∀ c, c ∈ cs →
      (collection_outcome env c = Outcome.Exported ↔
        env.exportOk c = true ∧ env.uploadOk c = true)) :=
  ⟨run_loop_eq_filter_map env db ts cs, by simp [run_outcomes],
   fun c _ => collection_outcome_exported_iff env c⟩

/-- C6 witness: in the mixed scenario, `backup_info` is exactly the one
entry of the successful collection. -/
theorem backup_info_exactly_successes_witness :
    run_loop envMixed dbDefault tsDemo [usersC, equipmentC] =
      [BackupEntry.mk equipmentC 3 (backup_filename dbDefault tsDemo
        equipmentC)] := by
  have h := (backup_info_exactly_successes envMixed dbDefault tsDemo
    [usersC, equipmentC]).1
  rw [h]
  decide

/-- C6 counterexample: a collection whose export raises determines the
outcome `ExportFailed`, yet appends no result at all — with one failing
collection processed, the run's results list is empty, not a single
`ExportFailed` record with captured error text. -/
theorem failed_collection_appends_nothing :
    collection_outcome envExportFail usersC = Outcome.ExportFailed ∧
    run_loop envExportFail dbDefault tsDemo [usersC] = [] ∧
    (run_loop envExportFail dbDefault tsDemo [usersC]).length = 0 := by
  decide

/-- C9: an empty collection set at run start — no live collections, none
of the configured names live, or the listing itself raising — makes
`run_backup` take the total-failure path: a failure notification is
attempted with the `No collections to backup` message, no artifact is
written, no success email or metadata upload happens, and the run returns
failure before any per-collection processing. -/
theorem empty_collections_total_failure (env : Env) (db ts : String)
    (hm : env.mongoOk = true) (hg : env.gcsOk = true) :
    ((env.listNamesOk = false ∨ env.availableCollections = [] ∨
        (env.configuredCollections ≠ [] ∧
          ∀ c, c ∈ env.configuredCollections →
            c ∉ env.availableCollections)) →
      get_collections_to_backup env = []) ∧
    (get_collections_to_backup env = [] →
      (run_backup env db ts).success = false ∧
      (run_backup env db ts).backupInfo = [] ∧
      (run_backup env db ts).uploads = [] ∧
      (run_backup env db ts).errorEmailAttempts =
        ["No collections to backup"] ∧
      (run_backup env db ts).successEmailAttempted = false ∧
      (run_backup env db ts).metadataUploadAttempted = false ∧
      (run_backup env db ts).clientClosed = true) := by
  constructor
  · intro hcause
    rcases h : env.listNamesOk with _ | _
    · simp [get_collections_to_backup, h]
    · rcases hcause with hl | hav | ⟨hcfg, habs⟩
      · rw [h] at hl
        exact absurd hl (by decide)
      · rcases hc : env.configuredCollections.isEmpty with _ | _
        · simp [get_collections_to_backup, h, hc, hav,
            List.filter_eq_nil_iff]
        · simp [get_collections_to_backup, h, hc, hav]
      · have hc : env.configuredCollections.isEmpty = false :=
          List.isEmpty_eq_false.mpr hcfg
        simp only [get_collections_to_backup, h, if_true, hc,
          Bool.false_eq_true, if_false]
        rw [List.filter_eq_nil_iff]
        intro a ha
        simp [contains_eq_true_iff, habs a ha]
  · intro hempty
    have hcs : (get_collections_to_backup env).isEmpty = true := by
      simp [hempty]
    simp [run_backup, hm, hg, hcs]

/-- C9 witness: when the collection listing raises, the run fails with no
artifact written and the failure notification attempted. -/
theorem empty_collections_total_failure_witness :
    (run_backup envListFail dbDefault tsDemo).success = false ∧
    (run_backup envListFail dbDefault tsDemo).uploads = [] ∧
    (run_backup envListFail dbDefault tsDemo).errorEmailAttempts =
      ["No collections to backup"] :=
  have h := (empty_collections_total_failure envListFail dbDefault tsDemo
    rfl rfl).2 (by decide)
  ⟨h.1, h.2.2.1, h.2.2.2.1⟩

/-- C10 (amended): every exit path of `run_backup` that enters the main
`try` block — that is, after both the MongoDB and the GCS connections
succeed — closes the MongoDB client, whether the collection set was
empty, every collection failed, or the run succeeded. -/
theorem client_closed_inside_try (env : Env) (db ts : String)
    (hm : env.mongoOk = true) (hg : env.gcsOk = true) :
    (run_backup env db ts).clientClosed = true := by
  cases hcs : (get_collections_to_backup env).isEmpty with
  | true => simp [run_backup, hm, hg, hcs]
  | false =>
    cases hinfo :
        (run_loop env db ts (get_collections_to_backup env)).isEmpty with
    | true => simp [run_backup, hm, hg, hcs, hinfo]
    | false => simp [run_backup, hm, hg, hcs, hinfo]

/-- C10 witness: in the all-success run the client is closed. -/
theorem client_closed_inside_try_witness :
    (run_backup envAllOk dbDefault tsDemo).clientClosed = true :=
  client_closed_inside_try envAllOk dbDefault tsDemo rfl rfl

/-- C10 counterexample: when the MongoDB connection succeeds but the GCS
connection fails, `run_backup` returns from the pre-`try` guard, an exit
path after a successful database connection on which the client is not
closed. -/
theorem client_not_closed_on_gcs_failure :
    envNoGcs.mongoOk = true ∧
    (run_backup envNoGcs dbDefault tsDemo).success = false ∧
    (run_backup envNoGcs dbDefault tsDemo).clientClosed = false := by
  decide

end Classets
